import Mathlib

/-!
Verification of the status-classification logic of the `gitops` scripts.

The repository consists of small scripts delegating to an external
version-control engine; the one piece of internal logic is the
`fileStatus` classifier, defined (identically) several times across the
scripts, and the `status` operation that maps it over the engine's
working-tree scan.  We embed those functions here and prove the
properties stated in the specification.
-/

/-- Per-file change descriptor as produced by the engine's working-tree
scan: a repository-relative path and seven independent boolean flags
(the accessors `isNew()`, `isModified()`, `isRenamed()`, `isIgnored()`,
`isDeleted()`, `isConflicted()`, `inIndex()` of the engine's status
entry object). -/
structure FileChangeDescriptor where
  path : String
  isNew : Bool
  isModified : Bool
  isRenamed : Bool
  isIgnored : Bool
  isDeleted : Bool
  isConflicted : Bool
  inIndex : Bool
deriving DecidableEq, Repr

/-- Output record of the status operation: `{ path, status }`. -/
structure StatusEntry where
  path : String
  status : String
deriving DecidableEq, Repr

/-- The classifier of `src/src/index.js` lines 53–78: starts from the
empty string and appends one character per true flag, testing the flags
in the fixed source order. -/
def fileStatus (file : FileChangeDescriptor) : String :=
  let result := ""
  let result := if file.isNew then result ++ "A" else result
  let result := if file.isModified then result ++ "M" else result
  let result := if file.isRenamed then result ++ "R" else result
  let result := if file.isIgnored then result ++ "?" else result
  let result := if file.isDeleted then result ++ "D" else result
  let result := if file.isConflicted then result ++ "C" else result
  let result := if file.inIndex then result ++ "I" else result
  result

/-- The status operation of `src/src/index.js` lines 85–88: maps each
descriptor of the engine's scan to `{ path: file.path, status:
fileStatus(file) }`, in the scan's order. -/
def status (statuses : List FileChangeDescriptor) : List StatusEntry :=
  statuses.map fun file => { path := file.path, status := fileStatus file }

namespace IndexB

/-- The second copy of the classifier in `src/src/index.js`,
lines 280–305 (textually identical to the first). -/
def fileStatus (file : FileChangeDescriptor) : String :=
  let result := ""
  let result := if file.isNew then result ++ "A" else result
  let result := if file.isModified then result ++ "M" else result
  let result := if file.isRenamed then result ++ "R" else result
  let result := if file.isIgnored then result ++ "?" else result
  let result := if file.isDeleted then result ++ "D" else result
  let result := if file.isConflicted then result ++ "C" else result
  let result := if file.inIndex then result ++ "I" else result
  result

end IndexB

namespace IndexC

/-- The third copy of the classifier in `src/src/index.js`,
lines 447–472 (textually identical to the first). -/
def fileStatus (file : FileChangeDescriptor) : String :=
  let result := ""
  let result := if file.isNew then result ++ "A" else result
  let result := if file.isModified then result ++ "M" else result
  let result := if file.isRenamed then result ++ "R" else result
  let result := if file.isIgnored then result ++ "?" else result
  let result := if file.isDeleted then result ++ "D" else result
  let result := if file.isConflicted then result ++ "C" else result
  let result := if file.inIndex then result ++ "I" else result
  result

end IndexC

namespace Part000

/-- The copy of the classifier in `src/unnamed/part_000`,
lines 53–78 (textually identical to the one in `index.js`). -/
def fileStatus (file : FileChangeDescriptor) : String :=
  let result := ""
  let result := if file.isNew then result ++ "A" else result
  let result := if file.isModified then result ++ "M" else result
  let result := if file.isRenamed then result ++ "R" else result
  let result := if file.isIgnored then result ++ "?" else result
  let result := if file.isDeleted then result ++ "D" else result
  let result := if file.isConflicted then result ++ "C" else result
  let result := if file.inIndex then result ++ "I" else result
  result

/-- The status operation of `src/unnamed/part_000` lines 80–83. -/
def status (statuses : List FileChangeDescriptor) : List StatusEntry :=
  statuses.map fun file => { path := file.path, status := fileStatus file }

end Part000

/-- Spec-side classifier, written from the specification's words (§4.1):
test the flags in the fixed order `isNew`, `isModified`, `isRenamed`,
`isIgnored`, `isDeleted`, `isConflicted`, `inIndex` and append, for each
flag that is true, the corresponding character `A`, `M`, `R`, `?`, `D`,
`C`, `I`. -/
def statusClassifierSpec (d : FileChangeDescriptor) : String :=
  (if d.isNew then "A" else "") ++
  (if d.isModified then "M" else "") ++
  (if d.isRenamed then "R" else "") ++
  (if d.isIgnored then "?" else "") ++
  (if d.isDeleted then "D" else "") ++
  (if d.isConflicted then "C" else "") ++
  (if d.inIndex then "I" else "")

/-- Number of true flags of a descriptor. -/
def trueFlagCount (d : FileChangeDescriptor) : Nat :=
  (if d.isNew then 1 else 0) + (if d.isModified then 1 else 0) +
  (if d.isRenamed then 1 else 0) + (if d.isIgnored then 1 else 0) +
  (if d.isDeleted then 1 else 0) + (if d.isConflicted then 1 else 0) +
  (if d.inIndex then 1 else 0)

/-- Flag inclusion: every flag true in `d1` is also true in `d2`. -/
def flagsLe (d1 d2 : FileChangeDescriptor) : Prop :=
  d1.isNew ≤ d2.isNew ∧ d1.isModified ≤ d2.isModified ∧
  d1.isRenamed ≤ d2.isRenamed ∧ d1.isIgnored ≤ d2.isIgnored ∧
  d1.isDeleted ≤ d2.isDeleted ∧ d1.isConflicted ≤ d2.isConflicted ∧
  d1.inIndex ≤ d2.inIndex

instance (d1 d2 : FileChangeDescriptor) : Decidable (flagsLe d1 d2) := by
  unfold flagsLe; infer_instance

theorem fileStatus_data_eq (d : FileChangeDescriptor) :
    (fileStatus d).data =
      (if d.isNew then ['A'] else []) ++ (if d.isModified then ['M'] else []) ++
      (if d.isRenamed then ['R'] else []) ++ (if d.isIgnored then ['?'] else []) ++
      (if d.isDeleted then ['D'] else []) ++ (if d.isConflicted then ['C'] else []) ++
      (if d.inIndex then ['I'] else []) := by
  obtain ⟨p, b1, b2, b3, b4, b5, b6, b7⟩ := d
  cases b1 <;> cases b2 <;> cases b3 <;> cases b4 <;> cases b5 <;> cases b6 <;> cases b7 <;> rfl

theorem fileStatus_length_eq (d : FileChangeDescriptor) :
    (fileStatus d).length = trueFlagCount d := by
  obtain ⟨p, b1, b2, b3, b4, b5, b6, b7⟩ := d
  cases b1 <;> cases b2 <;> cases b3 <;> cases b4 <;> cases b5 <;> cases b6 <;> cases b7 <;> rfl

theorem flagChar_sublist (b1 b2 : Bool) (c : Char) (h : b1 ≤ b2) :
    List.Sublist (if b1 then [c] else []) (if b2 then [c] else []) := by
  cases b1 <;> cases b2 <;> simp_all
  exact absurd h (by decide)

/-- C1: for every descriptor, `fileStatus` returns the string obtained by
testing the flags in the fixed order `isNew`, `isModified`, `isRenamed`,
`isIgnored`, `isDeleted`, `isConflicted`, `inIndex` and appending, for each
true flag, the character `A`, `M`, `R`, `?`, `D`, `C`, `I` respectively
(the spec-side classifier `statusClassifierSpec`). -/
theorem fileStatus_eq_statusClassifierSpec (d : FileChangeDescriptor) :
    fileStatus d = statusClassifierSpec d := by
  obtain ⟨p, b1, b2, b3, b4, b5, b6, b7⟩ := d
  cases b1 <;> cases b2 <;> cases b3 <;> cases b4 <;> cases b5 <;> cases b6 <;> cases b7 <;> rfl

/-- C2: the status operation maps each descriptor of the scan to the entry
pairing that descriptor's own path with its classification, preserving the
input enumeration order: the output has the same length as the input, and
the entry at every position `i` is built from the descriptor at position
`i`. -/
theorem status_pointwise (l : List FileChangeDescriptor) :
    (status l).length = l.length ∧
    ∀ i : Nat,
      (status l)[i]? =
        l[i]?.map (fun f => StatusEntry.mk f.path (fileStatus f)) := by
  refine ⟨by simp [status], fun i => ?_⟩
  simp [status]

/-- C3: all copies of the classifier in the sources (the three copies in
`src/src/index.js` and the one in `src/unnamed/part_000`) are
extensionally equal: on every descriptor they return the same string. -/
theorem fileStatus_copies_agree (d : FileChangeDescriptor) :
    fileStatus d = IndexB.fileStatus d ∧
    fileStatus d = IndexC.fileStatus d ∧
    fileStatus d = Part000.fileStatus d :=
  ⟨rfl, rfl, rfl⟩

/-- C4: for the descriptor with all seven flags true (any path),
`fileStatus` returns exactly `"AMR?DCI"`. -/
theorem fileStatus_all_flags (p : String) :
    fileStatus ⟨p, true, true, true, true, true, true, true⟩ = "AMR?DCI" :=
  rfl

/-- C5: for the descriptor with `isNew`, `isModified` and `inIndex` true
and the other four flags false, `fileStatus` returns exactly `"AMI"`. -/
theorem fileStatus_ami (p : String) :
    fileStatus ⟨p, true, true, false, false, false, false, true⟩ = "AMI" :=
  rfl

/-- C6: for every descriptor with exactly one flag true, `fileStatus`
returns exactly that flag's single-character code. -/
theorem fileStatus_single_flag (p : String) :
    fileStatus ⟨p, true, false, false, false, false, false, false⟩ = "A" ∧
    fileStatus ⟨p, false, true, false, false, false, false, false⟩ = "M" ∧
    fileStatus ⟨p, false, false, true, false, false, false, false⟩ = "R" ∧
    fileStatus ⟨p, false, false, false, true, false, false, false⟩ = "?" ∧
    fileStatus ⟨p, false, false, false, false, true, false, false⟩ = "D" ∧
    fileStatus ⟨p, false, false, false, false, false, true, false⟩ = "C" ∧
    fileStatus ⟨p, false, false, false, false, false, false, true⟩ = "I" :=
  ⟨rfl, rfl, rfl, rfl, rfl, rfl, rfl⟩

/-- C7: for every descriptor with all seven flags false, `fileStatus`
returns the empty string. -/
theorem fileStatus_no_flags (p : String) :
    fileStatus ⟨p, false, false, false, false, false, false, false⟩ = "" :=
  rfl

/-- C8: `fileStatus` is total over all flag combinations: for every
descriptor it returns a string (of length at most 7), with no error
branch; in the embedding it is a total function into `String`. -/
theorem fileStatus_total (d : FileChangeDescriptor) :
    ∃ s : String, fileStatus d = s ∧ s.length ≤ 7 := by
  refine ⟨fileStatus d, rfl, ?_⟩
  rw [fileStatus_length_eq]
  unfold trueFlagCount
  split_ifs <;> omega

/-- C9: `fileStatus` is deterministic: applied to equal descriptors it
yields identical strings. -/
theorem fileStatus_deterministic (d1 d2 : FileChangeDescriptor)
    (h : d1 = d2) : fileStatus d1 = fileStatus d2 := by
  rw [h]

/-- Witness for C9 at a concrete descriptor. -/
theorem fileStatus_deterministic_witness :
    fileStatus ⟨"src/index.js", true, false, false, false, false, false, true⟩ =
      fileStatus ⟨"src/index.js", true, false, false, false, false, false, true⟩ :=
  fileStatus_deterministic _ _ rfl

/-- C10: `fileStatus` is monotone with respect to flag inclusion: if every
flag true in `d1` is true in `d2`, the characters of `fileStatus d1` form
a sublist of those of `fileStatus d2`; in particular every result is a
sublist of `"AMR?DCI"`, has no repeated character, and its length equals
the number of true flags. -/
theorem fileStatus_monotone :
    (∀ d1 d2 : FileChangeDescriptor, flagsLe d1 d2 →
      List.Sublist (fileStatus d1).data (fileStatus d2).data) ∧
    (∀ d : FileChangeDescriptor,
      List.Sublist (fileStatus d).data ("AMR?DCI".data)) ∧
    (∀ d : FileChangeDescriptor, List.Nodup (fileStatus d).data) ∧
    (∀ d : FileChangeDescriptor, (fileStatus d).length = trueFlagCount d) := by
  have mono : ∀ d1 d2 : FileChangeDescriptor, flagsLe d1 d2 →
      List.Sublist (fileStatus d1).data (fileStatus d2).data := by
    intro d1 d2 h
    obtain ⟨h1, h2, h3, h4, h5, h6, h7⟩ := h
    rw [fileStatus_data_eq, fileStatus_data_eq]
    exact ((((((flagChar_sublist _ _ _ h1).append
      (flagChar_sublist _ _ _ h2)).append
      (flagChar_sublist _ _ _ h3)).append
      (flagChar_sublist _ _ _ h4)).append
      (flagChar_sublist _ _ _ h5)).append
      (flagChar_sublist _ _ _ h6)).append
      (flagChar_sublist _ _ _ h7)
  have bound : ∀ d : FileChangeDescriptor,
      List.Sublist (fileStatus d).data ("AMR?DCI".data) := by
    intro d
    exact mono d ⟨d.path, true, true, true, true, true, true, true⟩
      ⟨Bool.le_true _, Bool.le_true _, Bool.le_true _, Bool.le_true _,
       Bool.le_true _, Bool.le_true _, Bool.le_true _⟩
  exact ⟨mono, bound,
    fun d => List.Nodup.sublist (bound d) (by decide),
    fun d => fileStatus_length_eq d⟩

/-- Witness for C10 at concrete descriptors: adding the `isModified` flag
extends the status string, and the sublist relation holds. -/
theorem fileStatus_monotone_witness :
    List.Sublist
      (fileStatus ⟨"a", true, false, false, false, false, false, false⟩).data
      (fileStatus ⟨"a", true, true, false, false, false, false, true⟩).data :=
  fileStatus_monotone.1 _ _ (by decide)
